import Mathlib

set_option maxRecDepth 8000

/- Shallow embedding of src/action.py: keyword-triggered voice-command
actions for the AIY voice kit (SpeakTime, VolumeControl, RepeatAfterMe,
PowerCommand, playPodcast). Python strings are modeled as Lean String, or
as List Char where character-level reasoning is needed; machine side
effects (TTS, shell commands, the vlc player) are recorded as event
traces; Python exceptions escaping a run call are an explicit
Option field of the result. -/

namespace ActionPy

/-- Bool test that the first list occurs at the very front of the second
(character-by-character comparison). Building block for the models of the
Python substring operators below. -/
def leadsWith : List Char → List Char → Bool
  | [], _ => true
  | _ :: _, [] => false
  | a :: as, b :: bs => a == b && leadsWith as bs

/-- Python membership test needle in hay on strings: true when needle
occurs as a contiguous substring of hay (the empty needle is in every
string). -/
def listContains (needle : List Char) : List Char → Bool
  | [] => needle.isEmpty
  | c :: rest => leadsWith needle (c :: rest) || listContains needle rest

/-- Python s.replace(kw, "", 1): remove the first (leftmost) occurrence of
kw from s, leaving everything else unchanged; if kw does not occur, s is
returned unchanged. Replacing the empty string by the empty string is the
identity, as in Python. -/
def pyReplaceFirstL (kw : List Char) : List Char → List Char
  | [] => []
  | c :: rest =>
      if leadsWith kw (c :: rest) then (c :: rest).drop kw.length
      else c :: pyReplaceFirstL kw rest

/-- String-level wrapper for Python s.replace(kw, "", 1). -/
def pyReplaceFirst (s kw : String) : String := String.mk (pyReplaceFirstL kw.data s.data)

/-- String-level wrapper for Python needle in hay. -/
def strContains (hay needle : String) : Bool := listContains needle.data hay.data

/-- Python s.strip(): drop whitespace from both ends. -/
def pyStripL (s : List Char) : List Char :=
  (((s.dropWhile Char.isWhitespace).reverse).dropWhile Char.isWhitespace).reverse

/-- String-level wrapper for Python s.strip(). -/
def pyStrip (s : String) : String := String.mk (pyStripL s.data)

/-- Python s.lower(): lower-case every character. -/
def pyLower (s : String) : String := String.mk (s.data.map Char.toLower)

/-- HRS_TEXT table of SpeakTime.to_str (src/src/action.py line 100). -/
def HRS_TEXT : List String :=
  ["midnight", "one", "two", "three", "four", "five", "six",
   "seven", "eight", "nine", "ten", "eleven", "twelve"]

/-- MINS_TEXT table of SpeakTime.to_str (src/src/action.py line 102). -/
def MINS_TEXT : List String :=
  ["five", "ten", "quarter", "twenty", "twenty-five", "half"]

/-- SpeakTime.to_str (src/src/action.py lines 98-124), as a function of the
wall-clock hour (0-23) and minute (0-59) fields of the datetime argument.
List indexing uses getD; every index reached from hour < 24, minute < 60 is
in range, so this agrees with the raising Python indexing. -/
def SpeakTime.to_str (hour minute : Nat) : String :=
  let minuteRounded0 := (minute + 2) / 5
  let minuteIsInverted := decide (minuteRounded0 > 6)
  let minuteRounded := if minuteIsInverted then 12 - minuteRounded0 else minuteRounded0
  let hour1 := if minuteIsInverted then (hour + 1) % 24 else hour
  let hour2 := if hour1 > 12 then hour1 - 12 else hour1
  if minuteRounded = 0 then
    if hour2 = 0 then "It is midnight."
    else "It is " ++ HRS_TEXT.getD hour2 "" ++ " o\x27clock."
  else if minuteIsInverted then
    "It is " ++ MINS_TEXT.getD (minuteRounded - 1) "" ++ " to " ++ HRS_TEXT.getD hour2 "" ++ "."
  else
    "It is " ++ MINS_TEXT.getD (minuteRounded - 1) "" ++ " past " ++ HRS_TEXT.getD hour2 "" ++ "."

/-- Phrase rule restated in the words of the specification and of claim C2
(rounded = (minute + 2) div 5; if rounded > 6 invert to 12 - rounded and
advance the hour modulo 24; reduce hours above 12 by 12; the phrase is
"It is midnight." exactly when both the resulting hour and the rounded
minute are 0, the o-clock phrase when only the rounded minute is 0, the
"to" phrase in the inverted case and the "past" phrase otherwise). Kept as
a separate definition so that SpeakTime.to_str can be compared against it. -/
def SpeakTime.spec_phrase (hour minute : Nat) : String :=
  let rounded := (minute + 2) / 5
  let inverted := decide (rounded > 6)
  let roundedMin := if inverted then 12 - rounded else rounded
  let hourAdv := if inverted then (hour + 1) % 24 else hour
  let hourFinal := if hourAdv > 12 then hourAdv - 12 else hourAdv
  if hourFinal = 0 ∧ roundedMin = 0 then "It is midnight."
  else if roundedMin = 0 then
    "It is " ++ HRS_TEXT.getD hourFinal "" ++ " o\x27clock."
  else if inverted then
    "It is " ++ MINS_TEXT.getD (roundedMin - 1) "" ++ " to " ++ HRS_TEXT.getD hourFinal "" ++ "."
  else
    "It is " ++ MINS_TEXT.getD (roundedMin - 1) "" ++ " past " ++ HRS_TEXT.getD hourFinal "" ++ "."

/-- RepeatAfterMe.run (src/src/action.py lines 196-200): speaks
voice_command.replace(self.keyword, "", 1). The value returned here is the
text handed to say. -/
def RepeatAfterMe.run (keyword voiceCommand : List Char) : List Char :=
  pyReplaceFirstL keyword voiceCommand

/-- Python exceptions that can escape the modeled methods. -/
inductive PyExc where
  | calledProcessError
  | indexError
  | typeError
  | nameError (missing : String)
deriving DecidableEq

/-- Observable side effects of VolumeControl.run. -/
inductive VolEvent where
  | shell (cmd : String)
  | log (msg : String)
  | say (text : String)
deriving DecidableEq

/-- Outcome of one VolumeControl.run call: ordered effect trace plus the
exception escaping the call, if any. -/
structure VolResult where
  events : List VolEvent
  exc : Option PyExc
deriving DecidableEq

/-- Decimal value of a digit list (helper for the int() model). -/
def digitsVal (ds : List Char) : Nat := ds.foldl (fun a c => a * 10 + (c.toNat - 48)) 0

/-- Python int(s) applied to the stripped query output: optional sign
followed by one or more decimal digits; any other shape raises ValueError,
modeled as none. -/
def pythonInt (s : String) : Option Int :=
  match (pyStrip s).data with
  | [] => none
  | '-' :: ds => if !ds.isEmpty && ds.all Char.isDigit then some (-(digitsVal ds : Int)) else none
  | '+' :: ds => if !ds.isEmpty && ds.all Char.isDigit then some ((digitsVal ds : Int)) else none
  | ds => if !ds.isEmpty && ds.all Char.isDigit then some ((digitsVal ds : Int)) else none

/-- GET_VOLUME shell command string (src/src/action.py line 163). -/
def VolumeControl.GET_VOLUME : String :=
  "amixer get Master | grep \"Front Left:\" | sed \"s/.*\\[\\([0-9]\\+\\)%\\].*/\\1/\""

/-- SET_VOLUME shell command string after percent-formatting with the
clamped volume (src/src/action.py line 164). -/
def VolumeControl.SET_VOLUME (vol : Int) : String :=
  "amixer -q set Master " ++ toString vol ++ "%"

/-- VolumeControl.run (src/src/action.py lines 170-179). queryOutput models
the check_output call on GET_VOLUME: none means the command failed and
check_output raised CalledProcessError - that call sits before the
try block, so the exception escapes run. setExitCode is the exit status of
the SET_VOLUME command; subprocess.call returns it and never raises, and
run ignores it. A parse failure of int() (ValueError) is caught: it is
logged and nothing is spoken. -/
def VolumeControl.run (change : Int) (queryOutput : Option String) (_setExitCode : Int) : VolResult :=
  match queryOutput with
  | none => ⟨[.shell VolumeControl.GET_VOLUME], some .calledProcessError⟩
  | some out =>
      let res := pyStrip out
      match pythonInt res with
      | none =>
          ⟨[.shell VolumeControl.GET_VOLUME, .log ("volume: " ++ res),
            .log "Error using amixer to adjust volume."], none⟩
      | some v =>
          let vol := max 0 (min 100 (v + change))
          ⟨[.shell VolumeControl.GET_VOLUME, .log ("volume: " ++ res),
            .shell (VolumeControl.SET_VOLUME vol), .say ("Volume at " ++ toString vol ++ " %.")],
           none⟩

/-- Outcome of one PowerCommand.run call. Every branch of the source
terminates normally, so no exception field is needed. -/
structure PowerResult where
  spoken : List String
  shellCalls : List String
  errorLogs : List String
deriving DecidableEq

/-- PowerCommand.run (src/src/action.py lines 215-224): dispatch on the
command string fixed at construction. -/
def PowerCommand.run (command : String) : PowerResult :=
  if command = "shutdown" then ⟨["Shutting down, goodbye"], ["sudo shutdown now"], []⟩
  else if command = "reboot" then ⟨["Rebooting"], ["sudo shutdown -r now"], []⟩
  else ⟨["Sorry I didn\x27t identify that command"], [], ["Error identifying power command."]⟩

/-- Observable podcast-player side effects (say calls and calls on the vlc
media player object). -/
inductive PodEvent where
  | say (text : String)
  | playerStop
  | playerPlay
  | playerPause
  | setMedia (url : String)
deriving DecidableEq

/-- Outcome of one playPodcast.run call: ordered effect trace, the value of
the podcastState global when control leaves run, and the exception escaping
run, if any. -/
structure RunResult where
  events : List PodEvent
  finalState : String
  exc : Option PyExc
deriving DecidableEq

namespace playPodcast

/-- The rss-feed catalog of playPodcast.get_url (src/src/action.py lines
252-260). -/
def urls : List (String × String) :=
  [("friday night comedy", "http://www.bbc.co.uk/programmes/p02pc9pj/episodes/downloads.rss"),
   ("tech news today", "http://feeds.twit.tv/tnt.xml"),
   ("twig", "http://feeds.twit.tv/twig.xml"),
   ("this week in tech", "http://feeds.twit.tv/twit.xml"),
   ("theory of everything", "https://www.npr.org/rss/podcast.php?id=510061"),
   ("this american life", "http://feed.thisamericanlife.org/talpodcast"),
   ("android authority", "http://androidauthority.libsyn.com/rss")]

/-- playPodcast.get_url (src/src/action.py lines 250-261): Python dict
lookup; a missing key raises KeyError, modeled as none (run catches it). -/
def get_url (name : String) : Option String :=
  (urls.find? (fun p => p.1 == name)).map (fun p => p.2)

/-- Whether the processed command contains the token "random"
(src/src/action.py line 307). -/
def isRandomMode (cmd : String) : Bool := strContains cmd "random"

/-- The podcast name looked up in the catalog: when random mode is on, the
first occurrence of "random" is removed and the result stripped
(src/src/action.py line 309); otherwise the command itself. -/
def podcastName (cmd : String) : String :=
  if isRandomMode cmd then pyStrip (pyReplaceFirst cmd "random") else cmd

/-- The episode index chosen in run (src/src/action.py lines 328-333):
random.randint(0, entryCount) in random mode - note randint is inclusive at
BOTH ends, so rand entryCount ranges over 0..entryCount - and index 0
otherwise. rand models the random.randint oracle: rand n is the value
randint(0, n) returns on this call. -/
def chosenIndex (randomMode : Bool) (entryCount : Nat) (rand : Nat → Nat) : Nat :=
  if randomMode then rand entryCount else 0

/-- Core of playPodcast.run (src/src/action.py lines 277-358), taking the
already lower-cased, keyword-stripped, trimmed command (line 279 is modeled
separately by processCommand). Arguments: prevState is the value of the
podcastState global before the call (every path overwrites it); feed is the
entries list produced by feedparser.parse, each entry reduced to the list
of its links hrefs; rand is the random.randint oracle; engineState is the
code podcastPlayer.get_state() reports after the one-second sleep.
Faithful points of note: an out-of-range episode index raises IndexError at
feed.entries[podcast_number] (entries came back empty, or randint returned
its inclusive upper bound); when no href contains ".mp3", podcast_url is
still None and line 342 ("podcast url: " + podcast_url) raises TypeError;
in the engine-error branch line 353 evaluates "Sorry error playing " +
podcast where the name podcast is undefined, raising NameError before
anything is spoken and before set_state("stopped") runs, so the state stays
"starting"; in the success branch the trailing unguarded
set_state("playing") makes the final state "playing". -/
def runCore (_prevState cmd : String) (feed : List (List String))
    (rand : Nat → Nat) (engineState : Nat) : RunResult :=
  if cmd = "stop" ∨ cmd = "off" then ⟨[.playerStop], "stopped", none⟩
  else if cmd = "pause" then ⟨[], "paused", none⟩
  else if cmd = "resume" then ⟨[.playerPlay], "playing", none⟩
  else
    match get_url (podcastName cmd) with
    | none => ⟨[.say "Sorry podcast not found"], "stopped", none⟩
    | some _feedUrl =>
        match feed[chosenIndex (isRandomMode cmd) feed.length rand]? with
        | none => ⟨[], "stopped", some .indexError⟩
        | some links =>
            match links.find? (fun href => strContains href ".mp3") with
            | none => ⟨[], "stopped", some .typeError⟩
            | some url =>
                if engineState = 1 ∨ engineState = 2 ∨ engineState = 3 ∨ engineState = 4 then
                  ⟨[.setMedia url, .playerPlay], "playing", none⟩
                else
                  ⟨[.setMedia url, .playerPlay], "starting", some (.nameError "podcast")⟩

/-- Line 279 of src/src/action.py: lower-case the recognized text, remove
the first occurrence of the trigger keyword, strip whitespace. -/
def processCommand (keyword text : String) : String :=
  pyStrip (pyReplaceFirst (pyLower text) keyword)

/-- Full playPodcast.run: preprocessing followed by the branching core. -/
def run (prevState keyword text : String) (feed : List (List String))
    (rand : Nat → Nat) (engineState : Nat) : RunResult :=
  runCore prevState (processCommand keyword text) feed rand engineState

/-- playPodcast.pause hook (src/src/action.py lines 360-367): reads the
podcastState global and calls podcastPlayer.pause() only when it is
"playing" (the NameError guard never fires once the controller exists).
Returns the player calls issued. -/
def pause (podcastState : String) : List PodEvent :=
  if podcastState = "playing" then [.playerPause] else []

/-- playPodcast.resume hook (src/src/action.py lines 369-373): reads the
podcastState global and calls podcastPlayer.play() only when it is
"playing". Returns the player calls issued. -/
def resume (podcastState : String) : List PodEvent :=
  if podcastState = "playing" then [.playerPlay] else []

end playPodcast

/-- pauseActors (src/src/action.py lines 441-443). -/
def pauseActors (podcastState : String) : List PodEvent := playPodcast.pause podcastState

/-- resumeActors (src/src/action.py lines 445-447). -/
def resumeActors (podcastState : String) : List PodEvent := playPodcast.resume podcastState

theorem leadsWith_iff (kw s : List Char) : leadsWith kw s = true ↔ ∃ t, s = kw ++ t := by
  induction kw generalizing s with
  | nil => simp [leadsWith]
  | cons a as ih =>
      cases s with
      | nil => simp [leadsWith]
      | cons b bs =>
          simp only [leadsWith, Bool.and_eq_true, beq_iff_eq]
          constructor
          · rintro ⟨rfl, h⟩
            obtain ⟨t, rfl⟩ := (ih bs).mp h
            exact ⟨t, rfl⟩
          · rintro ⟨t, ht⟩
            simp only [List.cons_append, List.cons.injEq] at ht
            obtain ⟨rfl, rfl⟩ := ht
            exact ⟨rfl, (ih _).mpr ⟨t, rfl⟩⟩

theorem pyReplaceFirstL_at_head (kw q : List Char) :
    pyReplaceFirstL kw (kw ++ q) = q := by
  cases hs : kw ++ q with
  | nil =>
      obtain ⟨rfl, rfl⟩ := List.append_eq_nil.mp hs
      rfl
  | cons c rest =>
      have hl : leadsWith kw (c :: rest) = true := (leadsWith_iff _ _).mpr ⟨q, hs.symm⟩
      rw [pyReplaceFirstL, hl, if_pos rfl, ← hs, List.drop_left]

theorem pyReplaceFirstL_skip (kw : List Char) :
    ∀ (p q s : List Char), s = p ++ (kw ++ q) →
      (∀ i, i < p.length → leadsWith kw (s.drop i) = false) →
      pyReplaceFirstL kw s = p ++ q := by
  intro p
  induction p with
  | nil =>
      intro q s hs _
      subst hs
      simpa using pyReplaceFirstL_at_head kw q
  | cons a p ih =>
      intro q s hs hno
      subst hs
      have h0 : leadsWith kw (a :: (p ++ (kw ++ q))) = false := by
        simpa using hno 0 (by simp)
      have hrec : pyReplaceFirstL kw (p ++ (kw ++ q)) = p ++ q := by
        refine ih q _ rfl ?_
        intro i hi
        simpa using hno (i + 1) (by simpa using Nat.succ_lt_succ hi)
      show pyReplaceFirstL kw (a :: (p ++ (kw ++ q))) = (a :: p) ++ q
      rw [pyReplaceFirstL, h0]
      simp [hrec]

theorem pyReplaceFirstL_no_occ (kw : List Char) :
    ∀ s, (¬ ∃ p q, s = p ++ (kw ++ q)) → pyReplaceFirstL kw s = s := by
  intro s
  induction s with
  | nil => intro _; rfl
  | cons c rest ih =>
      intro h
      cases hl : leadsWith kw (c :: rest) with
      | true =>
          obtain ⟨t, ht⟩ := (leadsWith_iff _ _).mp hl
          exact absurd ⟨[], t, by simpa using ht⟩ h
      | false =>
          have hrest : pyReplaceFirstL kw rest = rest := by
            refine ih ?_
            rintro ⟨p, q, hpq⟩
            exact h ⟨c :: p, q, by simp [hpq]⟩
          rw [pyReplaceFirstL, hl]
          simp [hrest]

/-- Claim C10: for every input string, RepeatAfterMe.run speaks the input
with only the first occurrence of the configured keyword removed; every
character outside that occurrence (including later occurrences of the
keyword, case and whitespace) is preserved, and when the keyword does not
occur the input is spoken unchanged. First part: no occurrence of the
keyword means the input comes back unchanged. Second part: if the input
splits as p ++ keyword ++ q with the occurrence at position p.length being
the first one (no occurrence starts at any earlier index), the spoken text
is exactly p ++ q. -/
theorem repeatAfterMe_first_occurrence (kw s : List Char) :
    ((¬ ∃ p q, s = p ++ (kw ++ q)) → RepeatAfterMe.run kw s = s) ∧
    (∀ p q, s = p ++ (kw ++ q) →
      (∀ i, i < p.length → leadsWith kw (s.drop i) = false) →
      RepeatAfterMe.run kw s = p ++ q) :=
  ⟨fun h => pyReplaceFirstL_no_occ kw s h,
   fun p q hs hno => pyReplaceFirstL_skip kw p q s hs hno⟩

/-- Claim C10 witness: removing the first of the two occurrences of "b"
from "abb" speaks "ab". -/
theorem repeatAfterMe_first_occurrence_witness :
    RepeatAfterMe.run (['b'] : List Char) ['a', 'b', 'b'] = ['a', 'b'] :=
  (repeatAfterMe_first_occurrence ['b'] ['a', 'b', 'b']).2 ['a'] ['b'] rfl (by decide)

/-- Claim C9: for every PowerCommand constructed with a command string
other than "shutdown" or "reboot", run speaks exactly the one apology
message, logs one error, and executes no shell command; no exception is
raised (the modeled run is total). -/
theorem power_unknown_command_spec (command : String)
    (h1 : command ≠ "shutdown") (h2 : command ≠ "reboot") :
    PowerCommand.run command =
      ⟨["Sorry I didn\x27t identify that command"], [], ["Error identifying power command."]⟩ := by
  unfold PowerCommand.run
  rw [if_neg h1, if_neg h2]

/-- Claim C9 witness at the concrete command "dance". -/
theorem power_unknown_command_spec_witness :
    PowerCommand.run "dance" =
      ⟨["Sorry I didn\x27t identify that command"], [], ["Error identifying power command."]⟩ :=
  power_unknown_command_spec "dance" (by decide) (by decide)

/-- Claim C7: the process-wide pause hook issues a player pause call only
when the podcast state is "playing", the resume hook issues a player play
call only when the state is "playing", and neither hook issues any player
call when the state is "paused" or "stopped". -/
theorem podcast_hooks_guard_spec (s : String) :
    (playPodcast.pause s ≠ [] → s = "playing") ∧
    (playPodcast.resume s ≠ [] → s = "playing") ∧
    ((s = "paused" ∨ s = "stopped") → playPodcast.pause s = [] ∧ playPodcast.resume s = []) := by
  by_cases hs : s = "playing"
  · subst hs
    refine ⟨fun _ => rfl, fun _ => rfl, fun h => ?_⟩
    rcases h with h | h
    · exact absurd h (by decide)
    · exact absurd h (by decide)
  · have hp : playPodcast.pause s = [] := by simp [playPodcast.pause, hs]
    have hr : playPodcast.resume s = [] := by simp [playPodcast.resume, hs]
    exact ⟨fun h => absurd hp h, fun h => absurd hr h, fun _ => ⟨hp, hr⟩⟩

/-- Claim C7 witness: from state "stopped" neither hook issues a player
call. -/
theorem podcast_hooks_guard_spec_witness :
    playPodcast.pause "stopped" = [] ∧ playPodcast.resume "stopped" = [] :=
  (podcast_hooks_guard_spec "stopped").2.2 (Or.inr rfl)

/-- Claim C2 counterexample: the claim states that hour 4, minute 58 yields
"It is five to five.", but the source rounds 58 up past the half hour to
the exact next hour (rounded minute 0), giving "It is five o\x27clock.". -/
theorem speakTime_458_counterexample :
    SpeakTime.to_str 4 58 = "It is five o\x27clock." ∧
    SpeakTime.to_str 4 58 ≠ "It is five to five." := by
  decide

/-- Claim C2 as amended: for every hour 0-23 and minute 0-59,
SpeakTime.to_str is the deterministic function described by the rounding
and inversion rule of the specification (stated verbatim as
SpeakTime.spec_phrase), and the concrete examples hold with the (4, 58)
example corrected to "It is five o\x27clock.". -/
theorem speakTime_to_str_spec :
    (∀ hour, hour < 24 → ∀ minute, minute < 60 →
       SpeakTime.to_str hour minute = SpeakTime.spec_phrase hour minute) ∧
    SpeakTime.to_str 4 58 = "It is five o\x27clock." ∧
    SpeakTime.to_str 0 0 = "It is midnight." ∧
    SpeakTime.to_str 6 0 = "It is six o\x27clock." := by
  refine ⟨?_, by decide, by decide, by decide⟩
  decide

/-- Claim C2 witness: the universally quantified part of the amended claim
applied at hour 4, minute 58. -/
theorem speakTime_to_str_spec_witness :
    SpeakTime.to_str 4 58 = SpeakTime.spec_phrase 4 58 :=
  speakTime_to_str_spec.1 4 (by decide) 58 (by decide)

/-- Claim C5: for every prior playback state, a run call whose remaining
command names a podcast not present in the catalog produces exactly one
spoken "not found" message, leaves the playback state at "stopped", issues
no player call, and raises no exception. The trace is exactly the one say
event, the final state is "stopped" whatever prev was, and exc is none. -/
theorem podcast_unknown_name_spec (prev cmd : String) (feed : List (List String))
    (rand : Nat → Nat) (engineState : Nat)
    (h1 : cmd ≠ "stop") (h2 : cmd ≠ "off") (h3 : cmd ≠ "pause") (h4 : cmd ≠ "resume")
    (h5 : playPodcast.get_url (playPodcast.podcastName cmd) = none) :
    playPodcast.runCore prev cmd feed rand engineState =
      ⟨[.say "Sorry podcast not found"], "stopped", none⟩ := by
  unfold playPodcast.runCore
  rw [if_neg (by simp [h1, h2]), if_neg h3, if_neg h4, h5]

/-- Claim C5 witness: "unknownshow" is not in the catalog; the call from
prior state "playing" speaks the not-found message once and ends stopped. -/
theorem podcast_unknown_name_spec_witness :
    playPodcast.runCore "playing" "unknownshow" [["http://host/ep1.mp3"]] (fun _ => 0) 3 =
      ⟨[.say "Sorry podcast not found"], "stopped", none⟩ :=
  podcast_unknown_name_spec "playing" "unknownshow" [["http://host/ep1.mp3"]] (fun _ => 0) 3
    (by decide) (by decide) (by decide) (by decide) (by decide)

/-- Claim C3 counterexample: a known podcast ("friday night comedy") with
an empty feed produces no spoken apology at all and an IndexError escapes
run, contradicting the claim that an apology is spoken and no exception
propagates. -/
theorem podcast_empty_feed_counterexample :
    (playPodcast.runCore "stopped" "friday night comedy" [] (fun _ => 0) 3).events = [] ∧
    (playPodcast.runCore "stopped" "friday night comedy" [] (fun _ => 0) 3).exc =
      some .indexError := by
  decide

/-- Claim C3 as amended: for every run call naming a known podcast, if the
chosen episode index is out of range (in particular when the fetched feed
is empty) then run speaks nothing and an IndexError escapes, and if the
chosen episode contains no link whose href contains ".mp3" then run speaks
nothing and a TypeError escapes; in both cases the playback state is
"stopped" when the exception leaves run. -/
theorem podcast_feed_failure_amended (prev cmd : String) (feed : List (List String))
    (rand : Nat → Nat) (engineState : Nat)
    (h1 : cmd ≠ "stop") (h2 : cmd ≠ "off") (h3 : cmd ≠ "pause") (h4 : cmd ≠ "resume")
    (url : String) (h5 : playPodcast.get_url (playPodcast.podcastName cmd) = some url) :
    (feed[playPodcast.chosenIndex (playPodcast.isRandomMode cmd) feed.length rand]? = none →
       playPodcast.runCore prev cmd feed rand engineState = ⟨[], "stopped", some .indexError⟩) ∧
    (∀ links,
       feed[playPodcast.chosenIndex (playPodcast.isRandomMode cmd) feed.length rand]? = some links →
       links.find? (fun href => strContains href ".mp3") = none →
       playPodcast.runCore prev cmd feed rand engineState = ⟨[], "stopped", some .typeError⟩) := by
  constructor
  · intro hidx
    simp [playPodcast.runCore, h1, h2, h3, h4, h5, hidx]
  · intro links hidx hfind
    simp [playPodcast.runCore, h1, h2, h3, h4, h5, hidx, hfind]

/-- Claim C3 witness: the empty-feed half of the amended claim at the
concrete known podcast "friday night comedy" with an empty feed. -/
theorem podcast_feed_failure_amended_witness :
    playPodcast.runCore "playing" "friday night comedy" [] (fun _ => 0) 3 =
      ⟨[], "stopped", some .indexError⟩ :=
  (podcast_feed_failure_amended "playing" "friday night comedy" [] (fun _ => 0) 3
      (by decide) (by decide) (by decide) (by decide)
      "http://www.bbc.co.uk/programmes/p02pc9pj/episodes/downloads.rss" (by decide)).1 (by decide)

/-- Claim C1 (code bug): on a run that reaches playback start for a known
podcast with a playable link, when the engine-state code after play is not
among the actively-playing codes 1-4, line 353 evaluates the undefined name
podcast, so a NameError escapes run before any error is spoken and the
state is left at "starting", not "stopped" (and the unguarded trailing
set_state("playing") would make it "playing" even if the say succeeded).
First conjunct: the failing engine code 5. Second conjunct: the claim is
right about the success case, engine code 3 ends in state "playing". -/
theorem podcast_playback_error_code_bug :
    playPodcast.runCore "stopped" "friday night comedy" [["http://host/ep1.mp3"]] (fun _ => 0) 5 =
      ⟨[.setMedia "http://host/ep1.mp3", .playerPlay], "starting", some (.nameError "podcast")⟩ ∧
    playPodcast.runCore "stopped" "friday night comedy" [["http://host/ep1.mp3"]] (fun _ => 0) 3 =
      ⟨[.setMedia "http://host/ep1.mp3", .playerPlay], "playing", none⟩ := by
  decide

/-- Claim C4 (code bug): random-episode mode draws
random.randint(0, entryCount) whose upper bound is inclusive, so on a
one-entry feed the oracle may return 1: the chosen index equals the feed
length, the claimed invariant chosenIndex < entryCount fails, and the
episode lookup raises IndexError one past the last valid entry. -/
theorem podcast_random_index_code_bug :
    playPodcast.chosenIndex true 1 (fun _ => 1) = 1 ∧
    playPodcast.runCore "stopped" "random friday night comedy" [["http://host/ep1.mp3"]]
        (fun _ => 1) 3 =
      ⟨[], "stopped", some .indexError⟩ := by
  decide

/-- Claim C6 (code bug): check_output on the volume query sits before the
try block, so a failing query command propagates CalledProcessError out of
run with nothing logged or spoken (first conjunct); a failing set command
never raises, because subprocess.call just returns the exit status, and the
new volume is spoken anyway (second conjunct, exit status 2); only the
int() parse failure is really logged and swallowed with nothing spoken
(third conjunct). -/
theorem volume_failure_code_bug :
    VolumeControl.run 10 none 0 =
      ⟨[.shell VolumeControl.GET_VOLUME], some .calledProcessError⟩ ∧
    VolumeControl.run 10 (some "50") 2 =
      ⟨[.shell VolumeControl.GET_VOLUME, .log "volume: 50",
        .shell "amixer -q set Master 60%", .say "Volume at 60 %."], none⟩ ∧
    VolumeControl.run 10 (some "junk") 0 =
      ⟨[.shell VolumeControl.GET_VOLUME, .log "volume: junk",
        .log "Error using amixer to adjust volume."], none⟩ := by
  decide

end ActionPy
